import Mathlib

/-!
Shallow embedding of `src/server.py` (benji-dashboard): a Flask server with a
session-based authentication gate (`login_required`), a credential check
(`login`), logout, static-file serving with a special rule for `.json` files,
and two allowlisted file-reading APIs (`get_task_content`, `get_doc_content`).

Filesystem paths are modelled as lists of path segments; the filesystem itself
is an abstract existence predicate `List String → Bool`.  Sessions are a
structure mirroring the keys the server stores in the Flask session.
Python string operations used by the server (`lower`, `strip`, `in`,
`startswith`, `endswith`) are embedded as structurally recursive functions on
`List Char` so that all definitions are kernel-evaluable.
-/

namespace BenjiDashboard

/-- Python whitespace characters recognised by `str.strip()` (ASCII range). -/
def isPySpace (c : Char) : Bool :=
  c == ' ' || c == '\t' || c == '\n' || c == '\r' || c == Char.ofNat 11 || c == Char.ofNat 12

/-- Embedding of Python `str.lower()` (ASCII case folding). -/
def pyLower (s : String) : String :=
  String.mk (s.data.map Char.toLower)

/-- Embedding of Python `str.strip()`: drop leading and trailing whitespace. -/
def pyStrip (s : String) : String :=
  String.mk (((s.data.dropWhile isPySpace).reverse.dropWhile isPySpace).reverse)

/-- `leadsWith pre l` is true when `pre` is an initial run of `l`. -/
def leadsWith : List Char → List Char → Bool
  | [], _ => true
  | _ :: _, [] => false
  | a :: as, b :: bs => a == b && leadsWith as bs

/-- `hasSub sub l` is true when `sub` occurs contiguously somewhere in `l`. -/
def hasSub (sub : List Char) : List Char → Bool
  | [] => leadsWith sub []
  | c :: cs => leadsWith sub (c :: cs) || hasSub sub cs

/-- Embedding of Python `sub in s` (substring containment). -/
def pyIn (sub s : String) : Bool :=
  hasSub sub.data s.data

/-- Embedding of Python `s.startswith(pre)`. -/
def pyStartsWith (pre s : String) : Bool :=
  leadsWith pre.data s.data

/-- Embedding of Python `s.endswith(suf)`. -/
def pyEndsWith (suf s : String) : Bool :=
  leadsWith suf.data.reverse s.data.reverse

/-- Split a string at the path separator, keeping empty pieces. -/
def splitSlashAux : List Char → List Char → List String
  | acc, [] => [String.mk acc.reverse]
  | acc, c :: rest =>
    if c == '/' then String.mk acc.reverse :: splitSlashAux [] rest
    else splitSlashAux (c :: acc) rest

/-- Split a URL path into segments at each slash. -/
def splitSlash (s : String) : List String :=
  splitSlashAux [] s.data

/-- The Flask session as used by `server.py`: keys `authenticated`, `username`
and `login_attempts` (absent keys read as their defaults), plus the
`permanent` flag.  `session.clear()` restores every field to its default. -/
structure Session where
  authenticated : Bool := false
  username : Option String := none
  loginAttempts : Option Nat := none
  permanent : Bool := false
  deriving DecidableEq

/-- A fresh (or cleared) session: every key absent. -/
def Session.empty : Session := {}

/-- The observable HTTP responses produced by the handlers.  `fileContent p`
stands for a 200 response whose body is (a JSON wrapper around) the contents
of the file at path `p`. -/
inductive Resp where
  | fileContent (path : List String)
  | jsonError (status : Nat) (error : String)
  | redirect (location : String)
  | loginPage (error : Bool)
  | healthOk
  deriving DecidableEq

/-- `app.config['PERMANENT_SESSION_LIFETIME'] = 60 * 60 * 24 * 30` (30 days,
in seconds): the lifetime a session marked `permanent` receives. -/
def PERMANENT_SESSION_LIFETIME : Nat := 60 * 60 * 24 * 30

/-- `is_authenticated()`: `session.get('authenticated', False)`. -/
def is_authenticated (s : Session) : Bool :=
  s.authenticated

/-- The `login_required` decorator: if the session is not authenticated, an
API path gets a structured 401 and any other path a redirect to `/login`;
otherwise the wrapped handler runs. -/
def login_required (path : String) (s : Session) (f : Unit → Session × Resp) :
    Session × Resp :=
  if !(is_authenticated s) then
    if pyStartsWith "/api/" path then (s, .jsonError 401 "Unauthorized")
    else (s, .redirect "/login")
  else f ()

/-- `valid_users = ['rafy', 'ryan']`. -/
def valid_users : List String :=
  ["rafy", "ryan"]

/-- The POST branch of the `login` handler.  `authPassword` is the
`AUTH_PASSWORD` value loaded from the environment at startup. -/
def login_post (authPassword : String) (username password : String) (s : Session) :
    Session × Resp :=
  let u := pyStrip (pyLower username)
  if valid_users.contains u && password == authPassword then
    ({ s with loginAttempts := none, permanent := true,
              authenticated := true, username := some u },
     .redirect "/")
  else
    let attempts := s.loginAttempts.getD 0 + 1
    if attempts ≥ 3 then
      ({ s with loginAttempts := none }, .redirect "https://raom.kr")
    else
      ({ s with loginAttempts := some attempts }, .loginPage true)

/-- The `logout` handler: `session.clear()` then redirect to `/`. -/
def logout (_s : Session) : Session × Resp :=
  (Session.empty, .redirect "/")

/-- Modelled from the spec: Flask's `send_from_directory` (the ContentServer
collaborator; library code not under src) serves `dir/filename` after a safe
join, answering NotFound when the join is unsafe (a `..` or empty segment)
or the file does not exist. -/
def send_from_directory (fs : List String → Bool) (dir : List String)
    (filename : String) : Resp :=
  if (splitSlash filename).contains ".." || (splitSlash filename).contains "" then
    .jsonError 404 "Not Found"
  else if fs (dir ++ splitSlash filename) then
    .fileContent (dir ++ splitSlash filename)
  else
    .jsonError 404 "Not Found"

/-- The `static_files` handler (`/<path:filename>`): files ending in `.json`
other than `package.json` require authentication; everything else is served
from the dashboard directory with no check. -/
def static_files (fs : List String → Bool) (dashboardDir : List String)
    (s : Session) (filename : String) : Resp :=
  if pyEndsWith ".json" filename && filename != "package.json" then
    if !(is_authenticated s) then .jsonError 401 "Unauthorized"
    else send_from_directory fs dashboardDir filename
  else
    send_from_directory fs dashboardDir filename

/-- `allowed_folders = ['active', 'next', 'waiting', 'completed']`. -/
def allowed_folders : List String :=
  ["active", "next", "waiting", "completed"]

/-- The `get_task_content` handler body (`/api/task/<folder>/<filename>`).
`baseDir` is the parent of the dashboard directory, so `TASKS_DIR` is
`baseDir ++ ["tasks"]`.  The Flask `<filename>` converter never matches a
slash, so `filename` is a single path segment. -/
def get_task_content (fs : List String → Bool) (baseDir : List String)
    (folder filename : String) : Resp :=
  if pyIn ".." folder || pyIn ".." filename then
    .jsonError 400 "Invalid path"
  else if !(allowed_folders.contains folder) then
    .jsonError 400 "Invalid folder"
  else
    let file_path := baseDir ++ ["tasks", folder, filename]
    if !(fs file_path) then .jsonError 404 "File not found"
    else .fileContent file_path

/-- `allowed_docs`: the fixed document allowlist, mapping each logical key to
its physical path below `base_dir` (the parent of the dashboard directory). -/
def allowed_docs (base_dir : List String) : List (String × List String) :=
  [ ("youtube-books/CURRENT_SYSTEM_SUMMARY.md",
      base_dir ++ ["youtube-books", "CURRENT_SYSTEM_SUMMARY.md"]),
    ("shorts/docs/book_recommendation_proposal.md",
      base_dir ++ ["shorts", "docs", "book_recommendation_proposal.md"]),
    ("shorts/DEPLOY.md", base_dir ++ ["shorts", "DEPLOY.md"]),
    ("knowledge/youtube.md", base_dir ++ ["knowledge", "youtube.md"]),
    ("knowledge/infra.md", base_dir ++ ["knowledge", "infra.md"]) ]

/-- The `get_doc_content` handler body (`/api/doc/<path:doc_path>`). -/
def get_doc_content (fs : List String → Bool) (base_dir : List String)
    (doc_path : String) : Resp :=
  if pyIn ".." doc_path then
    .jsonError 400 "Invalid path"
  else
    match (allowed_docs base_dir).lookup doc_path with
    | none => .jsonError 403 "Document not allowed"
    | some file_path =>
      if !(fs file_path) then .jsonError 404 "File not found"
      else .fileContent file_path

/-- The routes of the application, with the data each one carries. -/
inductive Request where
  | loginGet
  | loginPost (username password : String)
  | logoutReq
  | indexReq
  | dashboardData
  | staticFile (filename : String)
  | task (folder filename : String)
  | doc (docPath : String)
  | health

/-- `request.path` as seen by the gate for each route. -/
def Request.path : Request → String
  | .loginGet => "/login"
  | .loginPost _ _ => "/login"
  | .logoutReq => "/logout"
  | .indexReq => "/"
  | .dashboardData => "/dashboard-data.json"
  | .staticFile f => "/" ++ f
  | .task folder filename => "/api/task/" ++ folder ++ "/" ++ filename
  | .doc d => "/api/doc/" ++ d
  | .health => "/health"

/-- The whole application: dispatch a request to its handler, wrapping the
gated routes (`/`, `/dashboard-data.json`, `/api/task/...`, `/api/doc/...`)
in `login_required` exactly as the decorators in `server.py` do. -/
def handle (authPassword : String) (fs : List String → Bool)
    (dashboardDir baseDir : List String) (s : Session) (r : Request) :
    Session × Resp :=
  match r with
  | .loginGet => (s, .loginPage false)
  | .loginPost u p => login_post authPassword u p s
  | .logoutReq => logout s
  | .indexReq =>
      login_required Request.indexReq.path s
        (fun _ => (s, send_from_directory fs dashboardDir "index.html"))
  | .dashboardData =>
      login_required Request.dashboardData.path s
        (fun _ => (s, send_from_directory fs dashboardDir "dashboard-data.json"))
  | .staticFile f => (s, static_files fs dashboardDir s f)
  | .task folder filename =>
      login_required (Request.task folder filename).path s
        (fun _ => (s, get_task_content fs baseDir folder filename))
  | .doc d =>
      login_required (Request.doc d).path s
        (fun _ => (s, get_doc_content fs baseDir d))
  | .health => (s, .healthOk)

/-- The union of locations the spec allows reads from: inside the dashboard
directory, inside an allowlisted task folder under `tasksRoot`, or one of the
five physical paths of the document allowlist. -/
def allowedRead (dashboardDir baseDir : List String) (p : List String) : Prop :=
  (∃ rest, p = dashboardDir ++ rest) ∨
  (∃ f rest, allowed_folders.contains f = true ∧ p = baseDir ++ ["tasks", f] ++ rest) ∨
  (∃ k, (k, p) ∈ allowed_docs baseDir)

/-! ### Helper lemmas -/

/-- A successful association-list lookup returns a value stored in the list. -/
theorem lookup_mem_of_eq_some {β : Type} (l : List (String × β)) (k : String) (v : β)
    (h : l.lookup k = some v) : ∃ k2, (k2, v) ∈ l := by
  induction l with
  | nil => simp [List.lookup] at h
  | cons a l ih =>
    rcases a with ⟨k1, b⟩
    rw [List.lookup] at h
    cases hk : (k == k1) with
    | true =>
      rw [hk] at h
      injection h with hv
      exact ⟨k1, by simp [hv]⟩
    | false =>
      rw [hk] at h
      rcases ih h with ⟨k2, hm⟩
      exact ⟨k2, List.mem_cons_of_mem _ hm⟩

/-- If the gate's result is file content, the wrapped handler produced it. -/
theorem login_required_read (path : String) (s : Session) (f : Unit → Session × Resp)
    (p : List String) (h : (login_required path s f).2 = Resp.fileContent p) :
    (f ()).2 = Resp.fileContent p := by
  unfold login_required at h
  split at h
  · split at h <;> simp at h
  · exact h

/-- `send_from_directory dir` only ever serves paths below `dir`. -/
theorem send_from_directory_read (fs : List String → Bool) (dir : List String)
    (filename : String) (p : List String)
    (h : send_from_directory fs dir filename = Resp.fileContent p) :
    ∃ rest, p = dir ++ rest := by
  unfold send_from_directory at h
  split at h
  · simp at h
  · split at h
    · exact ⟨splitSlash filename, by injection h with h2; exact h2.symm⟩
    · simp at h

/-- A file served by `get_task_content` lies at `tasksRoot/folder/filename`
with an allowlisted folder. -/
theorem get_task_content_read (fs : List String → Bool) (baseDir : List String)
    (folder filename : String) (p : List String)
    (h : get_task_content fs baseDir folder filename = Resp.fileContent p) :
    allowed_folders.contains folder = true ∧ p = baseDir ++ ["tasks", folder, filename] := by
  unfold get_task_content at h
  split at h
  · simp at h
  · split at h
    · simp at h
    next hfold =>
      dsimp only at h
      split at h
      · simp at h
      · refine ⟨by simpa using hfold, ?_⟩
        injection h with h2
        exact h2.symm

/-- A file served by `get_doc_content` is a value of the document allowlist. -/
theorem get_doc_content_read (fs : List String → Bool) (base_dir : List String)
    (doc_path : String) (p : List String)
    (h : get_doc_content fs base_dir doc_path = Resp.fileContent p) :
    ∃ k, (k, p) ∈ allowed_docs base_dir := by
  unfold get_doc_content at h
  split at h
  · simp at h
  · split at h
    · simp at h
    next fp heq =>
      split at h
      · simp at h
      · injection h with h2
        exact h2 ▸ lookup_mem_of_eq_some _ _ _ heq

/-- `static_files` only ever serves paths below the dashboard directory. -/
theorem static_files_read (fs : List String → Bool) (dir : List String) (s : Session)
    (filename : String) (p : List String)
    (h : static_files fs dir s filename = Resp.fileContent p) :
    ∃ rest, p = dir ++ rest := by
  unfold static_files at h
  split at h
  · split at h
    · simp at h
    · exact send_from_directory_read _ _ _ _ h
  · exact send_from_directory_read _ _ _ _ h

/-- The login handler never answers with file content. -/
theorem login_post_no_read (authPassword username password : String) (s : Session)
    (p : List String) :
    (login_post authPassword username password s).2 ≠ Resp.fileContent p := by
  unfold login_post
  dsimp only
  split
  · simp
  · split <;> simp

/-! ### Claim theorems -/

/-- C1: whatever request reaches the application, with whatever
attacker-chosen folder, filename or doc key, a response that returns the
contents of a file only ever does so for a path inside the dashboard
directory, inside `tasksRoot/<f>` for an allowlisted folder `f`, or one of
the five physical paths of the document allowlist; in particular the path
composed by the task route is `tasksRoot/folder/filename` itself, which in
the path-segment model never leaves `tasksRoot`. -/
theorem gated_reads_allowlisted (authPassword : String) (fs : List String → Bool)
    (dashboardDir baseDir : List String) (s : Session) (r : Request) (p : List String)
    (h : (handle authPassword fs dashboardDir baseDir s r).2 = Resp.fileContent p) :
    allowedRead dashboardDir baseDir p := by
  cases r with
  | loginGet => simp [handle] at h
  | loginPost u pw => exact absurd h (login_post_no_read _ _ _ _ _)
  | logoutReq => simp [handle, logout] at h
  | indexReq =>
    unfold handle at h
    have h2 := login_required_read _ _ _ _ h
    dsimp only at h2
    exact Or.inl (send_from_directory_read _ _ _ _ h2)
  | dashboardData =>
    unfold handle at h
    have h2 := login_required_read _ _ _ _ h
    dsimp only at h2
    exact Or.inl (send_from_directory_read _ _ _ _ h2)
  | staticFile f =>
    unfold handle at h
    exact Or.inl (static_files_read _ _ _ _ _ h)
  | task folder filename =>
    unfold handle at h
    have h2 := login_required_read _ _ _ _ h
    dsimp only at h2
    rcases get_task_content_read _ _ _ _ _ h2 with ⟨hf, hp⟩
    exact Or.inr (Or.inl ⟨folder, [filename], hf, by simpa using hp⟩)
  | doc d =>
    unfold handle at h
    have h2 := login_required_read _ _ _ _ h
    dsimp only at h2
    exact Or.inr (Or.inr (get_doc_content_read _ _ _ _ h2))
  | health => simp [handle] at h

/-- C1 witness: an authenticated task request for `active/foo.md` returns the
file at `tasksRoot/active/foo.md`, which the invariant classifies as an
allowlisted read. -/
theorem gated_reads_allowlisted_witness :
    (handle "pw" (fun _ => true) ["dash"] ["base"] ⟨true, none, none, false⟩
        (Request.task "active" "foo.md")).2 =
      Resp.fileContent ["base", "tasks", "active", "foo.md"] ∧
    allowedRead ["dash"] ["base"] ["base", "tasks", "active", "foo.md"] :=
  ⟨rfl, gated_reads_allowlisted "pw" (fun _ => true) ["dash"] ["base"]
    ⟨true, none, none, false⟩ (Request.task "active" "foo.md")
    ["base", "tasks", "active", "foo.md"] rfl⟩

/-- C2: the access gate admits authenticated sessions to the wrapped handler;
an unauthenticated session gets a structured 401 JSON error on a path with
the `/api/` namespace and a redirect to `/login` otherwise, and in both
denial cases the result is the same whatever handler is wrapped — the
handler body is never reached. -/
theorem access_gate_decision (path : String) (s : Session)
    (f g : Unit → Session × Resp) :
    (s.authenticated = true → login_required path s f = f ()) ∧
    (s.authenticated = false → pyStartsWith "/api/" path = true →
        login_required path s f = (s, Resp.jsonError 401 "Unauthorized") ∧
        login_required path s f = login_required path s g) ∧
    (s.authenticated = false → pyStartsWith "/api/" path = false →
        login_required path s f = (s, Resp.redirect "/login") ∧
        login_required path s f = login_required path s g) := by
  unfold login_required is_authenticated
  refine ⟨fun ha => by simp [ha], fun ha hp => by simp [ha, hp],
    fun ha hp => by simp [ha, hp]⟩

/-- C2 witness: an unauthenticated request to an `/api/` path is answered
with the 401 error, with the wrapped handler irrelevant. -/
theorem access_gate_decision_witness :
    login_required "/api/doc/x" Session.empty
        (fun _ => (Session.empty, Resp.healthOk)) =
      (Session.empty, Resp.jsonError 401 "Unauthorized") :=
  ((access_gate_decision "/api/doc/x" Session.empty
      (fun _ => (Session.empty, Resp.healthOk))
      (fun _ => (Session.empty, Resp.healthOk))).2.1 rfl (by decide)).1

/-- C9: `GET /logout` always clears the whole session and redirects to `/`;
afterwards the session is unauthenticated, and repeating the call yields the
exact same cleared state and response. -/
theorem logout_idempotent (s : Session) :
    logout s = (Session.empty, Resp.redirect "/") ∧
    (logout s).1.authenticated = false ∧
    logout (logout s).1 = logout s :=
  ⟨rfl, rfl, rfl⟩

/-- On a failing credential pair the login handler steps the attempt counter,
clearing it and redirecting externally once it reaches 3. -/
theorem login_post_fail_eq (authPassword username password : String) (s : Session)
    (hfail : (valid_users.contains (pyStrip (pyLower username))
        && password == authPassword) = false) :
    login_post authPassword username password s =
      if s.loginAttempts.getD 0 + 1 ≥ 3 then
        ({ s with loginAttempts := none }, Resp.redirect "https://raom.kr")
      else
        ({ s with loginAttempts := some (s.loginAttempts.getD 0 + 1) },
          Resp.loginPage true) := by
  unfold login_post
  dsimp only
  rw [if_neg (fun h => Bool.false_ne_true (hfail.symm.trans h))]

/-- C3: a failed login attempt raises the stored attempt count from `n` to
`n + 1`; when `n + 1` reaches the threshold 3 the counter is cleared (it
reads as 0 afterwards) and the response is a redirect to the fixed external
destination, otherwise the login form is re-rendered with the generic error
marker; and from a fresh counter, three consecutive failures make the third
failure's response (the spec's "fourth response") the external redirect with
the counter reset to 0. -/
theorem login_failure_spec (authPassword username password : String) (s : Session)
    (hfail : (valid_users.contains (pyStrip (pyLower username))
        && password == authPassword) = false) :
    (s.loginAttempts.getD 0 + 1 ≥ 3 →
        login_post authPassword username password s =
          ({ s with loginAttempts := none }, Resp.redirect "https://raom.kr") ∧
        (login_post authPassword username password s).1.loginAttempts.getD 0 = 0) ∧
    (s.loginAttempts.getD 0 + 1 < 3 →
        login_post authPassword username password s =
          ({ s with loginAttempts := some (s.loginAttempts.getD 0 + 1) },
            Resp.loginPage true)) ∧
    (s.loginAttempts = none →
        (login_post authPassword username password
            ((login_post authPassword username password
              ((login_post authPassword username password s).1)).1)).2 =
          Resp.redirect "https://raom.kr" ∧
        (login_post authPassword username password
            ((login_post authPassword username password
              ((login_post authPassword username password s).1)).1)).1.loginAttempts.getD 0
          = 0) := by
  obtain ⟨a, u0, la, pm⟩ := s
  refine ⟨fun h3 => ?_, fun h3 => ?_, fun hnone => ?_⟩
  · rw [login_post_fail_eq _ _ _ _ hfail, if_pos h3]
    exact ⟨rfl, rfl⟩
  · rw [login_post_fail_eq _ _ _ _ hfail, if_neg (by omega)]
  · obtain rfl : la = none := hnone
    have h1 : login_post authPassword username password ⟨a, u0, none, pm⟩ =
        (⟨a, u0, some 1, pm⟩, Resp.loginPage true) := by
      rw [login_post_fail_eq _ _ _ _ hfail, if_neg (by simp)]
      simp
    have h2 : login_post authPassword username password ⟨a, u0, some 1, pm⟩ =
        (⟨a, u0, some 2, pm⟩, Resp.loginPage true) := by
      rw [login_post_fail_eq _ _ _ _ hfail, if_neg (by simp)]
      simp
    have h3 : login_post authPassword username password ⟨a, u0, some 2, pm⟩ =
        (⟨a, u0, none, pm⟩, Resp.redirect "https://raom.kr") := by
      rw [login_post_fail_eq _ _ _ _ hfail, if_pos (by simp)]
    rw [h1]
    dsimp only
    rw [h2]
    dsimp only
    rw [h3]
    exact ⟨rfl, rfl⟩

/-- C3 witness: a failing attempt on a session whose counter already stands
at 2 is answered with the external redirect and a cleared counter. -/
theorem login_failure_spec_witness :
    login_post "benji2026" "eve" "nope" ⟨false, none, some 2, false⟩ =
      ({ (⟨false, none, some 2, false⟩ : Session) with loginAttempts := none },
        Resp.redirect "https://raom.kr") :=
  ((login_failure_spec "benji2026" "eve" "nope" ⟨false, none, some 2, false⟩
      (by decide)).1 (by decide)).1

/-- C4: a login attempt succeeds exactly when the lowercased, trimmed
username is one of the fixed allowed usernames and the password equals the
shared secret (case-sensitively); on success the attempt counter is cleared,
`authenticated` is set, the normalized username is stored, the session is
marked permanent (whose configured lifetime is 30 days in seconds) and the
response redirects to `/`. -/
theorem login_success_spec (authPassword username password : String) (s : Session) :
    ((login_post authPassword username password s).2 = Resp.redirect "/" ↔
      valid_users.contains (pyStrip (pyLower username)) = true ∧
        password = authPassword) ∧
    (valid_users.contains (pyStrip (pyLower username)) = true →
      password = authPassword →
      login_post authPassword username password s =
        ({ s with loginAttempts := none, permanent := true, authenticated := true,
                  username := some (pyStrip (pyLower username)) },
          Resp.redirect "/")) ∧
    PERMANENT_SESSION_LIFETIME = 60 * 60 * 24 * 30 := by
  refine ⟨⟨fun h => ?_, fun hc => ?_⟩, fun hu hp => ?_, rfl⟩
  · by_cases hb : (valid_users.contains (pyStrip (pyLower username))
        && password == authPassword) = true
    · rw [Bool.and_eq_true] at hb
      exact ⟨hb.1, by simpa using hb.2⟩
    · exfalso
      have hb2 : (valid_users.contains (pyStrip (pyLower username))
          && password == authPassword) = false := by simpa using hb
      rw [login_post_fail_eq _ _ _ _ hb2] at h
      split at h <;> simp at h
  · rcases hc with ⟨h1, h2⟩
    unfold login_post
    dsimp only
    rw [if_pos (by rw [Bool.and_eq_true]; exact ⟨h1, by simp [h2]⟩)]
  · unfold login_post
    dsimp only
    rw [if_pos (by rw [Bool.and_eq_true]; exact ⟨hu, by simp [hp]⟩)]

/-- C4 witness: `username=" RAFY "` (mixed case, surrounding whitespace) with
the correct password logs in, normalizes and stores the username, clears the
counter, marks the session permanent and redirects to `/`. -/
theorem login_success_spec_witness :
    login_post "benji2026" " RAFY " "benji2026" Session.empty =
      ({ Session.empty with
          loginAttempts := none, permanent := true,
          authenticated := true, username := some (pyStrip (pyLower " RAFY ")) },
        Resp.redirect "/") :=
  (login_success_spec "benji2026" " RAFY " "benji2026" Session.empty).2.1
    (by decide) rfl

/-- C5: any input containing the traversal token `..` — folder or filename of
the task resolver, or the doc key of the document resolver — is answered with
the 400 Invalid-path error, and that answer (like every allowlist rejection)
is the same for every filesystem: the rejection is decided before any
filesystem access. -/
theorem traversal_fail_fast (fs fs2 : List String → Bool) (baseDir : List String)
    (folder filename doc_path : String) :
    ((pyIn ".." folder = true ∨ pyIn ".." filename = true) →
        get_task_content fs baseDir folder filename = Resp.jsonError 400 "Invalid path" ∧
        get_task_content fs baseDir folder filename =
          get_task_content fs2 baseDir folder filename) ∧
    (pyIn ".." doc_path = true →
        get_doc_content fs baseDir doc_path = Resp.jsonError 400 "Invalid path" ∧
        get_doc_content fs baseDir doc_path = get_doc_content fs2 baseDir doc_path) ∧
    (allowed_folders.contains folder = false →
        get_task_content fs baseDir folder filename =
          get_task_content fs2 baseDir folder filename) ∧
    ((allowed_docs baseDir).lookup doc_path = none →
        get_doc_content fs baseDir doc_path = get_doc_content fs2 baseDir doc_path) := by
  refine ⟨fun h => ?_, fun h => ?_, fun h => ?_, fun h => ?_⟩
  · have hcond : (pyIn ".." folder || pyIn ".." filename) = true := by
      rcases h with h | h <;> simp [h]
    have e : ∀ g : List String → Bool,
        get_task_content g baseDir folder filename = Resp.jsonError 400 "Invalid path" := by
      intro g
      unfold get_task_content
      rw [if_pos hcond]
    exact ⟨e fs, (e fs).trans (e fs2).symm⟩
  · have e : ∀ g : List String → Bool,
        get_doc_content g baseDir doc_path = Resp.jsonError 400 "Invalid path" := by
      intro g
      unfold get_doc_content
      rw [if_pos h]
    exact ⟨e fs, (e fs).trans (e fs2).symm⟩
  · have hm : folder ∉ allowed_folders := by simpa using h
    unfold get_task_content
    cases hc : (pyIn ".." folder || pyIn ".." filename) <;> simp [hc, hm]
  · unfold get_doc_content
    cases hc : pyIn ".." doc_path <;> simp [hc, h]

/-- C5 witness: a folder of `../x` is rejected with the Invalid-path error on
a filesystem where every file exists. -/
theorem traversal_fail_fast_witness :
    get_task_content (fun _ => true) ["base"] "../x" "f.md" =
      Resp.jsonError 400 "Invalid path" :=
  ((traversal_fail_fast (fun _ => true) (fun _ => false) ["base"] "../x" "f.md"
      "d").1 (Or.inl (by decide))).1

/-- C6: whenever the folder is not one of the four allowlisted folder names,
the task resolver rejects — it never returns file content, answering with one
of the two 400 errors — whatever the filename says. -/
theorem folder_allowlist_rejects (fs : List String → Bool) (baseDir : List String)
    (folder filename : String)
    (h : allowed_folders.contains folder = false) :
    (∀ p, get_task_content fs baseDir folder filename ≠ Resp.fileContent p) ∧
    (get_task_content fs baseDir folder filename = Resp.jsonError 400 "Invalid path" ∨
      get_task_content fs baseDir folder filename = Resp.jsonError 400 "Invalid folder") := by
  have hm : folder ∉ allowed_folders := by simpa using h
  unfold get_task_content
  cases hc : (pyIn ".." folder || pyIn ".." filename) <;> simp [hc, hm]

/-- C6 witness: folder `secrets` is rejected even on a filesystem where every
file exists and with an innocuous filename. -/
theorem folder_allowlist_rejects_witness :
    get_task_content (fun _ => true) ["base"] "secrets" "x.md" =
        Resp.jsonError 400 "Invalid path" ∨
      get_task_content (fun _ => true) ["base"] "secrets" "x.md" =
        Resp.jsonError 400 "Invalid folder" :=
  (folder_allowlist_rejects (fun _ => true) ["base"] "secrets" "x.md" (by decide)).2

/-- C7: for a doc key without a traversal token, the document resolver
decides by verbatim lookup in the fixed allowlist: an absent key gets the 403
Document-not-allowed error; a present key whose mapped physical path exists
gets that file's content, and 404 when the path is missing. -/
theorem doc_allowlist_lookup (fs : List String → Bool) (baseDir : List String)
    (doc_path : String) (p : List String)
    (hno : pyIn ".." doc_path = false) :
    ((allowed_docs baseDir).lookup doc_path = none →
        get_doc_content fs baseDir doc_path = Resp.jsonError 403 "Document not allowed") ∧
    ((allowed_docs baseDir).lookup doc_path = some p → fs p = true →
        get_doc_content fs baseDir doc_path = Resp.fileContent p) ∧
    ((allowed_docs baseDir).lookup doc_path = some p → fs p = false →
        get_doc_content fs baseDir doc_path = Resp.jsonError 404 "File not found") := by
  unfold get_doc_content
  refine ⟨fun hl => by simp [hno, hl], fun hl hfs => by simp [hno, hl, hfs],
    fun hl hfs => by simp [hno, hl, hfs]⟩

/-- C7 witness: the key `unknown/key.md` is not in the allowlist and is
answered 403; the key `knowledge/youtube.md` maps to its physical path and,
when that file exists, its content is returned. -/
theorem doc_allowlist_lookup_witness :
    get_doc_content (fun _ => true) ["base"] "unknown/key.md" =
        Resp.jsonError 403 "Document not allowed" ∧
    get_doc_content (fun _ => true) ["base"] "knowledge/youtube.md" =
        Resp.fileContent ["base", "knowledge", "youtube.md"] :=
  ⟨(doc_allowlist_lookup (fun _ => true) ["base"] "unknown/key.md" []
      (by decide)).1 (by decide),
    (doc_allowlist_lookup (fun _ => true) ["base"] "knowledge/youtube.md"
      ["base", "knowledge", "youtube.md"] (by decide)).2.1 (by decide) rfl⟩

/-- C8: a static-file request for a name ending in `.json` (other than the
exact name `package.json`) requires authentication — unauthenticated callers
get the 401 JSON error, authenticated ones the file — while `package.json`
is served with no authentication check for every session. -/
theorem static_json_gated (fs : List String → Bool) (dashboardDir : List String)
    (s : Session) (filename : String)
    (hjson : pyEndsWith ".json" filename = true) (hpkg : filename ≠ "package.json") :
    (s.authenticated = false →
        static_files fs dashboardDir s filename = Resp.jsonError 401 "Unauthorized") ∧
    (s.authenticated = true →
        static_files fs dashboardDir s filename =
          send_from_directory fs dashboardDir filename) ∧
    static_files fs dashboardDir s "package.json" =
      send_from_directory fs dashboardDir "package.json" := by
  unfold static_files is_authenticated
  have hne : (filename != "package.json") = true := by simp [hpkg]
  refine ⟨fun ha => by simp [hjson, hne, ha], fun ha => by simp [hjson, hne, ha],
    by simp⟩

/-- C8 witness: an unauthenticated request for `data/secret.json` is refused
with the 401 error even though the file exists. -/
theorem static_json_gated_witness :
    static_files (fun _ => true) ["dash"] Session.empty "data/secret.json" =
      Resp.jsonError 401 "Unauthorized" :=
  (static_json_gated (fun _ => true) ["dash"] Session.empty "data/secret.json"
    (by decide) (by decide)).1 rfl

/-- C10: for a filename that does not end in `.json` (or is exactly
`package.json`) the static route performs no authentication check at all:
the response equals the plain directory serve and is identical for any two
sessions, so every such file below the dashboard directory — dotfiles like
`.env` included — is served to unauthenticated callers. -/
theorem static_nonjson_auth_blind (fs : List String → Bool)
    (dashboardDir : List String) (s s2 : Session) (filename : String)
    (h : pyEndsWith ".json" filename = false ∨ filename = "package.json") :
    static_files fs dashboardDir s filename =
      send_from_directory fs dashboardDir filename ∧
    static_files fs dashboardDir s filename =
      static_files fs dashboardDir s2 filename := by
  have e : ∀ t : Session, static_files fs dashboardDir t filename =
      send_from_directory fs dashboardDir filename := by
    intro t
    unfold static_files
    rcases h with h | h
    · simp [h]
    · subst h
      simp
  exact ⟨e s, (e s).trans (e s2).symm⟩

/-- C10 witness: `.env` (holding the shared secret) is served to an
unauthenticated session exactly as the plain directory serve would. -/
theorem static_nonjson_auth_blind_witness :
    static_files (fun _ => true) ["dash"] Session.empty ".env" =
      send_from_directory (fun _ => true) ["dash"] ".env" :=
  (static_nonjson_auth_blind (fun _ => true) ["dash"] Session.empty
    ⟨true, none, none, false⟩ ".env" (Or.inl (by decide))).1

end BenjiDashboard
